import Mathlib

/-!
Verification development for the job-reconciliation engine of a SLURM-backed
segmentation service.  The Python sources under `stroke_seg/` are shallowly
embedded: pure parsing helpers (`slurm_parser.py`) become Lean functions on
strings and association lists, the record store becomes an explicit `Store`
value threaded through the monitor operations, and subprocess results become
explicit parameters.  Machine-level concerns (logging, asyncio scheduling,
database connections) are out of the embedded fragment; the embedded
functions mirror the branch structure of the source line by line.
-/

/-- Calendar timestamp, the embedding of a Python `datetime` value as produced
by `datetime.strptime(_, "%Y-%m-%dT%H:%M:%S")`. -/
structure DateTime where
  year : Nat
  month : Nat
  day : Nat
  hour : Nat
  minute : Nat
  second : Nat
deriving DecidableEq

/-- The association-list embedding of the parsed `scontrol` key/value
dictionary handed to the extraction helpers of `slurm_parser.py`. -/
def JobDict := List (String × String)

/-- `dict.get(key)`: first binding wins (the parser writes each key once). -/
def dget (d : JobDict) (k : String) : Option String :=
  match d.find? (fun p => p.1 == k) with
  | some p => some p.2
  | none => none

/-- `extract_job_id` of `slurm_parser.py`. -/
def extract_job_id (d : JobDict) : Option String := dget d "JobId"

/-- `extract_job_state` of `slurm_parser.py`. -/
def extract_job_state (d : JobDict) : Option String := dget d "JobState"

/-- `extract_exit_code` of `slurm_parser.py`. -/
def extract_exit_code (d : JobDict) : Option String := dget d "ExitCode"

/-- `extract_job_reason` of `slurm_parser.py`. -/
def extract_job_reason (d : JobDict) : Option String := dget d "Reason"

/-- `is_job_successful` of `slurm_parser.py`: exit code present, truthy and
equal to `0:0` (an empty exit-code string is falsy in the source and compares
unequal to `0:0` either way). -/
def is_job_successful (d : JobDict) : Bool :=
  match extract_exit_code d with
  | some c => c == "0:0"
  | none => false

/-- `is_job_finished` of `slurm_parser.py`: membership in the finished set.
Note `PREEMPTED` is absent from this set although it maps to internal
FAILED. -/
def is_job_finished (slurm_state : String) : Bool :=
  ["COMPLETED", "FAILED", "CANCELLED", "TIMEOUT", "OUT_OF_MEMORY",
   "NODE_FAIL", "NOT_FOUND"].contains slurm_state

/-- `map_slurm_state_to_job_status` of `slurm_parser.py`: the dictionary
lookup with default `FAILED`. -/
def map_slurm_state_to_job_status (slurm_state : String) : String :=
  if slurm_state == "PENDING" then "PENDING"
  else if slurm_state == "RUNNING" then "RUNNING"
  else if slurm_state == "COMPLETED" then "COMPLETED"
  else if slurm_state == "FAILED" then "FAILED"
  else if slurm_state == "CANCELLED" then "FAILED"
  else if slurm_state == "TIMEOUT" then "FAILED"
  else if slurm_state == "OUT_OF_MEMORY" then "FAILED"
  else if slurm_state == "NODE_FAIL" then "FAILED"
  else if slurm_state == "PREEMPTED" then "FAILED"
  else if slurm_state == "SUSPENDED" then "RUNNING"
  else if slurm_state == "NOT_FOUND" then "COMPLETED"
  else "FAILED"

/-- The placeholder reason tokens dropped by `extract_error_message`. -/
def placeholderReasons : List String := ["None", "(null)", "N/A"]

/-- `extract_error_message` of `slurm_parser.py`.  Faithful to the source's
truthiness tests: a part is appended only when the corresponding string is
present and non-empty, and the early return fires when the state is not in
the finished set or the job is successful. -/
def extract_error_message (d : JobDict) : Option String :=
  let job_state := extract_job_state d
  let exit_code := extract_exit_code d
  let reason := extract_job_reason d
  if !(is_job_finished (job_state.getD "")) || is_job_successful d then
    none
  else
    let p1 : List String :=
      match job_state with
      | some st => if st != "" then ["Job state: " ++ st] else []
      | none => []
    let p2 : List String :=
      match exit_code with
      | some c => if c != "" && c != "0:0" then ["Exit code: " ++ c] else []
      | none => []
    let p3 : List String :=
      match reason with
      | some r =>
          if r != "" && !(placeholderReasons.contains r) then ["Reason: " ++ r] else []
      | none => []
    let p4 : List String :=
      if job_state == some "CANCELLED" then ["Job was cancelled"]
      else if job_state == some "TIMEOUT" then ["Job exceeded time limit"]
      else if job_state == some "OUT_OF_MEMORY" then ["Job ran out of memory"]
      else if job_state == some "NODE_FAIL" then ["Node failure occurred"]
      else if job_state == some "FAILED" then
        match exit_code with
        | some c =>
            if c != "" && c != "0:0" then ["Job failed with non-zero exit code"]
            else ["Job failed"]
        | none => ["Job failed"]
      else []
    let error_parts := p1 ++ p2 ++ p3 ++ p4
    if error_parts != [] then some (String.intercalate "; " error_parts)
    else some ("Job failed with state: " ++
      (match job_state with | some st => st | none => "None"))

/-- Month lengths used by `datetime`'s constructor validation. -/
def daysInMonth (y m : Nat) : Nat :=
  if m == 2 then
    if (y % 4 == 0 && y % 100 != 0) || y % 400 == 0 then 29 else 28
  else if m == 4 || m == 6 || m == 9 || m == 11 then 30
  else 31

/-- Parse one or two leading decimal digits (the `%m`/`%d`/`%H`/`%M`/`%S`
patterns of `strptime`), greedily. -/
def parseOneOrTwoDigits : List Char → Option (Nat × List Char)
  | c1 :: c2 :: rest =>
      if c1.isDigit && c2.isDigit then
        some ((c1.toNat - 48) * 10 + (c2.toNat - 48), rest)
      else if c1.isDigit then some (c1.toNat - 48, c2 :: rest)
      else none
  | [c1] => if c1.isDigit then some (c1.toNat - 48, []) else none
  | [] => none

/-- Parse exactly four decimal digits (the `%Y` pattern of `strptime`). -/
def parseFourDigits : List Char → Option (Nat × List Char)
  | c1 :: c2 :: c3 :: c4 :: rest =>
      if c1.isDigit && c2.isDigit && c3.isDigit && c4.isDigit then
        some ((((c1.toNat - 48) * 10 + (c2.toNat - 48)) * 10 + (c3.toNat - 48)) * 10
          + (c4.toNat - 48), rest)
      else none
  | _ => none

/-- Expect a literal character. -/
def parseLit (c : Char) : List Char → Option (List Char)
  | c1 :: rest => if c1 == c then some rest else none
  | [] => none

/-- `parse_slurm_timestamp` of `slurm_parser.py`, a model of
`datetime.strptime(s, "%Y-%m-%dT%H:%M:%S")`: placeholder tokens yield
`none`, and a parse failure (including calendar-range validation performed by
the `datetime` constructor) yields `none`. -/
def parse_slurm_timestamp (s : String) : Option DateTime :=
  if s == "" || ["Unknown", "N/A", "(null)", "None"].contains s then none
  else
    match parseFourDigits s.toList with
    | none => none
    | some (y, r1) =>
    match parseLit (Char.ofNat 45) r1 with
    | none => none
    | some r2 =>
    match parseOneOrTwoDigits r2 with
    | none => none
    | some (mo, r3) =>
    match parseLit (Char.ofNat 45) r3 with
    | none => none
    | some r4 =>
    match parseOneOrTwoDigits r4 with
    | none => none
    | some (d, r5) =>
    match parseLit (Char.ofNat 84) r5 with
    | none => none
    | some r6 =>
    match parseOneOrTwoDigits r6 with
    | none => none
    | some (h, r7) =>
    match parseLit (Char.ofNat 58) r7 with
    | none => none
    | some r8 =>
    match parseOneOrTwoDigits r8 with
    | none => none
    | some (mi, r9) =>
    match parseLit (Char.ofNat 58) r9 with
    | none => none
    | some r10 =>
    match parseOneOrTwoDigits r10 with
    | none => none
    | some (sec, r11) =>
      if r11 == [] && 1 ≤ y && y ≤ 9999 && 1 ≤ mo && mo ≤ 12 &&
          1 ≤ d && d ≤ daysInMonth y mo && h ≤ 23 && mi ≤ 59 && sec ≤ 59 then
        some ⟨y, mo, d, h, mi, sec⟩
      else none

/-- `extract_start_time` of `slurm_parser.py` (an empty string is falsy in
the source, so it short-circuits to `None`). -/
def extract_start_time (d : JobDict) : Option DateTime :=
  match dget d "StartTime" with
  | some s => if s != "" then parse_slurm_timestamp s else none
  | none => none

/-- `extract_end_time` of `slurm_parser.py`. -/
def extract_end_time (d : JobDict) : Option DateTime :=
  match dget d "EndTime" with
  | some s => if s != "" then parse_slurm_timestamp s else none
  | none => none

/-- The `JobInfo` summary dictionary built by `extract_job_summary`. -/
structure JobSummary where
  job_id : Option String
  state : String
  internal_status : String
  start_time : Option DateTime
  end_time : Option DateTime
  exit_code : Option String
  reason : Option String
  is_finished : Bool
  is_successful : Bool
  error_message : Option String
deriving DecidableEq

/-- `extract_job_summary` of `slurm_parser.py`. -/
def extract_job_summary (d : JobDict) : JobSummary :=
  let job_state := (extract_job_state d).getD ""
  let internal_status := map_slurm_state_to_job_status job_state
  { job_id := extract_job_id d
    state := job_state
    internal_status := internal_status
    start_time := extract_start_time d
    end_time := extract_end_time d
    exit_code := extract_exit_code d
    reason := extract_job_reason d
    is_finished := is_job_finished job_state
    is_successful := is_job_successful d
    error_message :=
      if internal_status == "FAILED" then extract_error_message d else none }

/-- `is_valid_state_transition` of `slurm_parser.py`: same state is always
legal, then the transition dictionary (terminal and unknown states allow
nothing). -/
def is_valid_state_transition (current_status new_status : String) : Bool :=
  if current_status == new_status then true
  else if current_status == "PENDING" then
    new_status == "RUNNING" || new_status == "FAILED"
  else if current_status == "RUNNING" then
    new_status == "COMPLETED" || new_status == "FAILED"
  else false

/-- `should_monitor_job_status` of `slurm_parser.py`. -/
def should_monitor_job_status (job_status : String) : Bool :=
  job_status == "PENDING" || job_status == "RUNNING"

/-- `SlurmClient._create_completed_job_summary`: the summary synthesized when
`scontrol` exits non-zero, with the caller's `datetime.now()` passed in
explicitly. -/
def create_completed_job_summary (job_id : String) (now : DateTime) : JobSummary :=
  { job_id := some job_id
    state := "NOT_FOUND"
    internal_status := "COMPLETED"
    start_time := none
    end_time := some now
    exit_code := some "0:0"
    reason := some "Job completed and removed from SLURM queue"
    is_finished := true
    is_successful := true
    error_message := none }

/-- Match a pattern at the head of a character list, returning the remainder
on success. -/
def matchAfter : List Char → List Char → Option (List Char)
  | [], rest => some rest
  | _ :: _, [] => none
  | p :: ps, c :: cs => if c == p then matchAfter ps cs else none

/-- Substring test over character lists (model of Python `in` on strings). -/
def containsSub (pat : List Char) : List Char → Bool
  | [] => (matchAfter pat []).isSome
  | c :: cs => (matchAfter pat (c :: cs)).isSome || containsSub pat cs

/-- Remove every (non-overlapping, leftmost-first) occurrence of a non-empty
pattern, the model of Python `str.replace(pat, "")`; driven by fuel to make
termination structural. -/
def removeSubstrAux : Nat → List Char → List Char → List Char
  | 0, _, _ => []
  | _ + 1, _, [] => []
  | fuel + 1, pat, c :: cs =>
      match matchAfter pat (c :: cs) with
      | some rest => removeSubstrAux fuel pat rest
      | none => c :: removeSubstrAux fuel pat cs

/-- `l.replace(pat, "")` for a non-empty `pat`. -/
def removeSubstr (pat l : List Char) : List Char :=
  removeSubstrAux l.length pat l

/-- Hexadecimal digit test. -/
def isHexDigitChar (c : Char) : Bool :=
  c.isDigit || (97 ≤ c.toNat && c.toNat ≤ 102) || (65 ≤ c.toNat && c.toNat ≤ 70)

/-- Curly-brace character test (written via code points). -/
def isBraceChar (c : Char) : Bool := c.toNat == 123 || c.toNat == 125

/-- Model of Python `uuid.UUID(s)` succeeding: strip `urn:` and `uuid:`
occurrences, strip surrounding braces, drop hyphens, and require exactly 32
hexadecimal digits (CPython's constructor algorithm). -/
def isValidUUID (s : String) : Bool :=
  let l1 := removeSubstr "urn:".toList s.toList
  let l2 := removeSubstr "uuid:".toList l1
  let l3 := ((l2.dropWhile isBraceChar).reverse.dropWhile isBraceChar).reverse
  let l4 := l3.filter (fun c => c.toNat != 45)
  l4.length == 32 && l4.all isHexDigitChar

/-- The mutable columns of a `JobRecord` row touched by the monitors. -/
structure JobRec where
  id : String
  sbatch_id : String
  job_type : String
  status : String
  start_time : Option DateTime
  end_time : Option DateTime
  error_message : Option String
deriving DecidableEq

/-- The columns of a `TrainingRecord` row touched by the monitors. -/
structure TrainingRec where
  id : String
  job_id : String
  name : String
  status : String
  end_time : Option DateTime
  error_message : Option String
deriving DecidableEq

/-- A `ModelRecord` row as created by the training monitor. -/
structure ModelRec where
  training_id : String
  model_name : String
  created_at : DateTime
deriving DecidableEq

/-- The columns of an `InferenceRecord` row touched by the monitors. -/
structure InferenceRec where
  predict_id : String
  job_id : String
  status : String
  end_time : Option DateTime
  error_message : Option String
deriving DecidableEq

/-- The record store: the four tables the monitors read and write. -/
structure Store where
  jobs : List JobRec
  trainings : List TrainingRec
  models : List ModelRec
  inferences : List InferenceRec
deriving DecidableEq

/-- The explicit update struct standing for the `**kwargs` passed to
`JobDAO.update`: `some` marks a column the call site set. -/
structure JobUpd where
  status : Option String
  start_time : Option DateTime
  end_time : Option DateTime
  error_message : Option String
deriving DecidableEq

/-- Apply a `JobUpd` to a row (`setattr` per provided kwarg). -/
def applyJobUpd (j : JobRec) (u : JobUpd) : JobRec :=
  { j with
    status := u.status.getD j.status
    start_time := match u.start_time with | some t => some t | none => j.start_time
    end_time := match u.end_time with | some t => some t | none => j.end_time
    error_message := match u.error_message with | some e => some e | none => j.error_message }

/-- `JobDAO.get_by_id`. -/
def jobGetById (s : Store) (id : String) : Option JobRec :=
  s.jobs.find? (fun x => x.id == id)

/-- `JobDAO.get_active_jobs`: rows with status PENDING or RUNNING. -/
def jobGetActive (s : Store) : List JobRec :=
  s.jobs.filter (fun x => x.status == "PENDING" || x.status == "RUNNING")

/-- `JobDAO.update`: find the row by id, set the provided columns, save.
Returns the updated row, or `none` when the row does not exist. -/
def jobUpdate (s : Store) (id : String) (u : JobUpd) : Store × Option JobRec :=
  match s.jobs.find? (fun x => x.id == id) with
  | none => (s, none)
  | some j =>
      let j' := applyJobUpd j u
      ({ s with jobs := s.jobs.map (fun x => if x.id == id then j' else x) }, some j')

/-- The explicit update struct for `TrainingDAO.update` call sites of the
monitor. -/
structure TrainUpd where
  status : Option String
  end_time : Option DateTime
deriving DecidableEq

/-- Apply a `TrainUpd` to a training row. -/
def applyTrainUpd (t : TrainingRec) (u : TrainUpd) : TrainingRec :=
  { t with
    status := u.status.getD t.status
    end_time := match u.end_time with | some e => some e | none => t.end_time }

/-- `TrainingDAO.get_by_job_id`. -/
def trainingGetByJobId (s : Store) (jobId : String) : Option TrainingRec :=
  s.trainings.find? (fun t => t.job_id == jobId)

/-- `TrainingDAO.update`. -/
def trainingUpdate (s : Store) (id : String) (u : TrainUpd) : Store × Option TrainingRec :=
  match s.trainings.find? (fun t => t.id == id) with
  | none => (s, none)
  | some t =>
      let t' := applyTrainUpd t u
      ({ s with trainings := s.trainings.map (fun x => if x.id == id then t' else x) }, some t')

/-- The explicit update struct for `InferenceDAO.update` call sites of the
monitor. -/
structure InferUpd where
  status : Option String
  end_time : Option DateTime
  error_message : Option String
deriving DecidableEq

/-- Apply an `InferUpd` to an inference row. -/
def applyInferUpd (i : InferenceRec) (u : InferUpd) : InferenceRec :=
  { i with
    status := u.status.getD i.status
    end_time := match u.end_time with | some e => some e | none => i.end_time
    error_message := match u.error_message with | some e => some e | none => i.error_message }

/-- `InferenceDAO.get_by_job_id`. -/
def inferenceGetByJobId (s : Store) (jobId : String) : Option InferenceRec :=
  s.inferences.find? (fun i => i.job_id == jobId)

/-- `InferenceDAO.update` (keyed by `predict_id`). -/
def inferenceUpdate (s : Store) (id : String) (u : InferUpd) : Store × Option InferenceRec :=
  match s.inferences.find? (fun i => i.predict_id == id) with
  | none => (s, none)
  | some i =>
      let i' := applyInferUpd i u
      ({ s with inferences := s.inferences.map (fun x => if x.predict_id == id then i' else x) },
        some i')

/-- `ModelDAO.create`: insert the row (always succeeds at the store level). -/
def modelCreate (s : Store) (m : ModelRec) : Store × ModelRec :=
  ({ s with models := s.models ++ [m] }, m)

/-- `BaseJobMonitor._should_update_timestamps`: a SLURM timestamp is present
that the row does not have yet. -/
def should_update_timestamps (job : JobRec) (start_time end_time : Option DateTime) : Bool :=
  (start_time.isSome && job.start_time.isNone) || (end_time.isSome && job.end_time.isNone)

/-- A kind-specific `_handle_job_update` implementation: from the (stale) job
row, the SLURM summary, the old and the new status, produce the store after
the handler's own commits together with its boolean result. -/
def Handler : Type :=
  JobRec → JobSummary → String → String → Store → Store × Bool

/-- The `update_data` dict built by `TrainingJobMonitor._handle_normal_update`
(identical construction in `PredictionJobMonitor._handle_normal_update`):
status always; timestamps only when newly available; the `NOT_FOUND` branch
re-sets `end_time` under the same condition; error message only on FAILED. -/
def normalUpd (job : JobRec) (info : JobSummary) (new_status : String) : JobUpd :=
  { status := some new_status
    start_time :=
      if info.start_time.isSome && job.start_time.isNone then info.start_time else none
    end_time :=
      if info.end_time.isSome && job.end_time.isNone then info.end_time
      else if info.state == "NOT_FOUND" && job.end_time.isNone && info.end_time.isSome then
        info.end_time
      else none
    error_message :=
      if new_status == "FAILED" && info.error_message.isSome then info.error_message
      else none }

/-- `TrainingJobMonitor._handle_normal_update`: update only the job row; a
`uuid.UUID` failure or a missing row yields `false` with no further writes. -/
def trainingHandleNormalUpdate (job : JobRec) (info : JobSummary) (new_status : String)
    (s : Store) : Store × Bool :=
  if !(isValidUUID job.id) then (s, false)
  else
    match jobUpdate s job.id (normalUpd job info new_status) with
    | (s', some _) => (s', true)
    | (s', none) => (s', false)

/-- The `job_update_data` dict of `_handle_training_completion`: status
COMPLETED, timestamps only when newly available. -/
def completionJobUpd (job : JobRec) (info : JobSummary) : JobUpd :=
  { status := some "COMPLETED"
    start_time :=
      if info.start_time.isSome && job.start_time.isNone then info.start_time else none
    end_time :=
      if info.end_time.isSome && job.end_time.isNone then info.end_time else none
    error_message := none }

/-- The `training_update_data` dict of `_handle_training_completion`: status
TRAINED, end time taken over whenever SLURM reports one. -/
def trainedUpd (info : JobSummary) : TrainUpd :=
  { status := some "TRAINED"
    end_time := match info.end_time with | some e => some e | none => none }

/-- `TrainingJobMonitor._handle_training_completion`: inside
`database.atomic()`, job to COMPLETED, training to TRAINED, model inserted.
An exception (invalid UUID) rolls the transaction back to the incoming store;
an early `return False` exits the `with` block normally and therefore commits
the writes made so far (peewee commits on non-exceptional exit). -/
def trainingHandleCompletion (now : DateTime) (job : JobRec) (info : JobSummary)
    (s : Store) : Store × Bool :=
  if !(isValidUUID job.id) then (s, false)
  else
    match jobUpdate s job.id (completionJobUpd job info) with
    | (s1, none) => (s1, false)
    | (s1, some _) =>
      match trainingGetByJobId s1 job.id with
      | none => (s1, false)
      | some training =>
        if !(isValidUUID training.id) then (s, false)
        else
          match trainingUpdate s1 training.id (trainedUpd info) with
          | (s2, none) => (s2, false)
          | (s2, some _) =>
            let m : ModelRec :=
              { training_id := training.id
                model_name := training.name ++ "_model"
                created_at := info.end_time.getD now }
            let (s3, _) := modelCreate s2 m
            (s3, true)

/-- `TrainingJobMonitor._handle_job_update`: completions go through the
transaction, everything else (including FAILED) through the normal
job-row-only update. -/
def trainingHandleJobUpdate (now : DateTime) : Handler :=
  fun job info _current new_status s =>
    if new_status == "COMPLETED" then trainingHandleCompletion now job info s
    else trainingHandleNormalUpdate job info new_status s

/-- `PredictionJobMonitor._handle_prediction_completion`. -/
def predictionHandleCompletion (job : JobRec) (info : JobSummary) (s : Store) : Store × Bool :=
  if !(isValidUUID job.id) then (s, false)
  else
    let u : JobUpd :=
      { status := some "COMPLETED"
        start_time :=
          if info.start_time.isSome && job.start_time.isNone then info.start_time else none
        end_time :=
          if info.end_time.isSome && job.end_time.isNone then info.end_time else none
        error_message := none }
    match jobUpdate s job.id u with
    | (s1, none) => (s1, false)
    | (s1, some _) =>
      match inferenceGetByJobId s1 job.id with
      | none => (s1, false)
      | some inf =>
        if !(isValidUUID inf.predict_id) then (s, false)
        else
          let iu : InferUpd :=
            { status := some "COMPLETED"
              end_time := match info.end_time with | some e => some e | none => none
              error_message := none }
          match inferenceUpdate s1 inf.predict_id iu with
          | (s2, none) => (s2, false)
          | (s2, some _) => (s2, true)

/-- `PredictionJobMonitor._handle_prediction_failure`. -/
def predictionHandleFailure (job : JobRec) (info : JobSummary) (s : Store) : Store × Bool :=
  if !(isValidUUID job.id) then (s, false)
  else
    let u : JobUpd :=
      { status := some "FAILED"
        start_time :=
          if info.start_time.isSome && job.start_time.isNone then info.start_time else none
        end_time :=
          if info.end_time.isSome && job.end_time.isNone then info.end_time else none
        error_message :=
          match info.error_message with | some e => some e | none => none }
    match jobUpdate s job.id u with
    | (s1, none) => (s1, false)
    | (s1, some _) =>
      match inferenceGetByJobId s1 job.id with
      | none => (s1, false)
      | some inf =>
        if !(isValidUUID inf.predict_id) then (s, false)
        else
          let iu : InferUpd :=
            { status := some "FAILED"
              end_time := match info.end_time with | some e => some e | none => none
              error_message := match info.error_message with | some e => some e | none => none }
          match inferenceUpdate s1 inf.predict_id iu with
          | (s2, none) => (s2, false)
          | (s2, some _) => (s2, true)

/-- `PredictionJobMonitor._handle_normal_update`: updates only the job row;
in contrast with the evaluation monitor, the sibling inference record is not
touched here. -/
def predictionHandleNormalUpdate (job : JobRec) (info : JobSummary) (new_status : String)
    (s : Store) : Store × Bool :=
  if !(isValidUUID job.id) then (s, false)
  else
    match jobUpdate s job.id (normalUpd job info new_status) with
    | (s', some _) => (s', true)
    | (s', none) => (s', false)

/-- `PredictionJobMonitor._handle_job_update`. -/
def predictionHandleJobUpdate : Handler :=
  fun job info _current new_status s =>
    if new_status == "COMPLETED" then predictionHandleCompletion job info s
    else if new_status == "FAILED" then predictionHandleFailure job info s
    else predictionHandleNormalUpdate job info new_status s

/-- `BaseJobMonitor._update_job_status` for one job, with the scheduler
answer passed in (`none` embeds both `get_job_info` raising, which the
source catches, and a falsy result): validate transition first, refuse with
no write when illegal, otherwise delegate to the handler when the status
changed or timestamps are newly available. -/
def updateJobStatus (handler : Handler) (job : JobRec) (infoOpt : Option JobSummary)
    (s : Store) : Store :=
  match infoOpt with
  | none => s
  | some info =>
    let current_status := job.status
    let new_status := info.internal_status
    if !(is_valid_state_transition current_status new_status) then s
    else
      let status_changed := current_status != new_status
      let timestamps_need_update := should_update_timestamps job info.start_time info.end_time
      if status_changed || timestamps_need_update then
        (handler job info current_status new_status s).1
      else s

/-- The per-job loop of `BaseJobMonitor._poll_active_jobs`: each job is
handled in turn on the evolving store (errors are isolated per job in the
source, so one job's outcome never stops the fold). -/
def processJobs (handler : Handler) (sched : String → Option JobSummary) :
    List JobRec → Store → Store
  | [], s => s
  | job :: rest, s =>
      processJobs handler sched rest (updateJobStatus handler job (sched job.sbatch_id) s)

/-- One monitor tick (`_poll_active_jobs`): fetch active jobs, filter to this
monitor's kind (`_get_jobs_to_monitor`), re-filter to monitorable states,
then process each job. -/
def monitorTick (handler : Handler) (sched : String → Option JobSummary)
    (job_type : String) (s : Store) : Store :=
  let jobs_to_monitor := (jobGetActive s).filter (fun j => j.job_type == job_type)
  let monitorable := jobs_to_monitor.filter (fun j => should_monitor_job_status j.status)
  processJobs handler sched monitorable s

/-- `BaseJobMonitor.poll_job_once`: parse the UUID (an invalid one is caught
and yields `none`), look the job up, query the scheduler (a raising lookup is
caught and yields `none`), and return the summary.  The store is returned
unchanged — the body performs no write. -/
def pollJobOnce (s : Store) (sched : String → Except String JobSummary)
    (job_id : String) : Store × Option JobSummary :=
  if !(isValidUUID job_id) then (s, none)
  else
    match jobGetById s job_id with
    | none => (s, none)
    | some job =>
      match sched job.sbatch_id with
      | .ok info => (s, some info)
      | .error _ => (s, none)

/-- Collect `{name}` placeholders, the model of the source's
`re.findall(r'\x7b([^\x7d]+)\x7d', template)`: at a literal `\x7b`, the
longest run of non-`\x7d` characters followed by `\x7d` is one match
(scanning resumes after it); otherwise scanning advances one character.
Fuel-driven (the fuel is the input length, which bounds the scan). -/
def findPlaceholdersAux : Nat → List Char → List String
  | 0, _ => []
  | _ + 1, [] => []
  | fuel + 1, c :: cs =>
      if c.toNat == 123 then
        match List.span (fun ch => ch.toNat != 125) cs with
        | (body, _ :: rest) =>
            if body.isEmpty then findPlaceholdersAux fuel cs
            else String.mk body :: findPlaceholdersAux fuel rest
        | (_, []) => findPlaceholdersAux fuel cs
      else findPlaceholdersAux fuel cs

/-- The placeholder scan on a string. -/
def findPlaceholders (template : String) : List String :=
  findPlaceholdersAux template.toList.length template.toList

/-- Substitution of provided variables for `{name}` placeholders, the model
of `template.format(**variables_dict)` on the success path. -/
def substPlaceholdersAux : Nat → List (String × String) → List Char → List Char
  | 0, _, _ => []
  | _ + 1, _, [] => []
  | fuel + 1, vars, c :: cs =>
      if c.toNat == 123 then
        match List.span (fun ch => ch.toNat != 125) cs with
        | (body, _ :: rest) =>
            match vars.find? (fun p => p.1 == String.mk body) with
            | some p => p.2.toList ++ substPlaceholdersAux fuel vars rest
            | none => c :: substPlaceholdersAux fuel vars cs
        | (_, []) => c :: substPlaceholdersAux fuel vars cs
      else c :: substPlaceholdersAux fuel vars cs

/-- String-level substitution. -/
def substPlaceholders (template : String) (vars : List (String × String)) : String :=
  String.mk (substPlaceholdersAux template.toList.length vars template.toList)

/-- Python `repr` of a list of plain strings, as interpolated by
f-strings such as `f"Missing template variables: \x7bmissing_vars\x7d"`. -/
def pyStrListRepr (l : List String) : String :=
  "[" ++ String.intercalate ", " (l.map (fun v => "\x27" ++ v ++ "\x27")) ++ "]"

/-- `TemplateGenerator.interpolate_template`.  When variables are missing the
source logs the message and then executes a bare `raise` with no active
exception; Python turns that into `RuntimeError("No active exception to
re-raise")`, which the function's own `except Exception` clause wraps into
`ModelCreationException("Template interpolation failed: ...")`.  The missing
variable names are therefore absent from the raised error. -/
def interpolate_template (template : String) (vars : List (String × String)) :
    Except String String :=
  let placeholders := findPlaceholders template
  let missing_vars := placeholders.filter (fun v => !(vars.any (fun p => p.1 == v)))
  if missing_vars != [] then
    Except.error "Template interpolation failed: No active exception to re-raise"
  else
    Except.ok (substPlaceholders template vars)

/-- `TemplateGenerator.generate_inference_sbatch_content`: here the missing
variables raise a proper `ModelCreationException`, which the surrounding
`except Exception` clause re-wraps, keeping the list in the message. -/
def generate_inference_sbatch_content (template : String) (vars : List (String × String)) :
    Except String String :=
  let placeholders := findPlaceholders template
  let missing_vars := placeholders.filter (fun v => !(vars.any (fun p => p.1 == v)))
  if missing_vars != [] then
    Except.error ("Inference template generation failed: Missing template variables: " ++
      pyStrListRepr missing_vars)
  else
    Except.ok (substPlaceholders template vars)

/-- `PredictionFacade.submit_prediction_job`, abstracted over the submission
outcome: render first, then submit.  The boolean records whether the
`slurm_client.submit_sbatch_job` call was reached. -/
def submit_prediction_job (template : String) (vars : List (String × String))
    (submitOutcome : Except String String) : Except String (String × String) × Bool :=
  match generate_inference_sbatch_content template vars with
  | .error e => (.error e, false)
  | .ok content =>
      match submitOutcome with
      | .error e => (.error e, true)
      | .ok job_id => (.ok (job_id, content), true)

/-- Result of `subprocess.run` on a completed command. -/
structure ExecResult where
  stdout : String
  stderr : String
  returncode : Int
deriving DecidableEq

/-- `BashClient.execute_command_with_success_check` on a completed command:
non-zero exit raises `ModelCreationException`. -/
def execute_command_with_success_check (command : List String) (r : ExecResult) :
    Except String String :=
  if r.returncode != 0 then
    Except.error ("Command failed with exit code " ++ toString r.returncode ++ ": " ++
      pyStrListRepr command ++ "\nStderr: " ++ r.stderr)
  else
    Except.ok r.stdout

/-- The maximal digit run at the head of a character list. -/
def takeDigits : List Char → List Char
  | [] => []
  | c :: cs => if c.isDigit then c :: takeDigits cs else []

/-- Leftmost match of the pattern `Submitted batch job (\d+)`: at each
position try the literal text followed by at least one digit and capture the
digit run. -/
def findSubmittedId : List Char → Option String
  | [] => none
  | c :: cs =>
      match matchAfter "Submitted batch job ".toList (c :: cs) with
      | some rest =>
          match rest with
          | d :: _ =>
              if d.isDigit then some (String.mk (takeDigits rest))
              else findSubmittedId cs
          | [] => findSubmittedId cs
      | none => findSubmittedId cs

/-- `SlurmClient.extract_job_id`: regex search, wrapped twice by the source's
own exception handling when absent. -/
def slurm_extract_job_id (sbatch_output : String) : Except String String :=
  match findSubmittedId sbatch_output.toList with
  | some job_id => Except.ok job_id
  | none =>
      Except.error ("Failed to extract job ID: Could not extract job ID from sbatch output: "
        ++ sbatch_output)

/-- `SlurmClient.submit_sbatch_job`, abstracted over the scratch path chosen
by `tempfile.mkstemp` and the completed `sbatch` invocation.  The scratch
file set is threaded explicitly: `create_temp_file` adds the path, the
`finally` block's `cleanup_file` removes it on every exit path. -/
def submit_sbatch_job (freshPath : String) (r : ExecResult) (scratch : List String) :
    List String × Except String String :=
  let scratch1 := scratch ++ [freshPath]
  let result : Except String String :=
    match execute_command_with_success_check ["sbatch", freshPath] r with
    | .error e => .error e
    | .ok sbatch_output => slurm_extract_job_id sbatch_output
  (scratch1.filter (fun p => p != freshPath), result)

/-- The internal status set of §4.2 of the spec. -/
def internalStatuses : List String := ["PENDING", "RUNNING", "COMPLETED", "FAILED"]

/-- The transition allow-list of §4.2 of the spec, written from the spec's
table (same-state pairs included). -/
def allowedPairs : List (String × String) :=
  [("PENDING", "PENDING"), ("PENDING", "RUNNING"), ("PENDING", "FAILED"),
   ("RUNNING", "RUNNING"), ("RUNNING", "COMPLETED"), ("RUNNING", "FAILED"),
   ("COMPLETED", "COMPLETED"), ("FAILED", "FAILED")]

/-- Modelled from the spec: the error-message composition of §4.2, assembled
from external state, exit code, reason and state-specific phrasing, joined by
`"; "`; the exit code appears when present, non-empty and different from
`0:0`, the reason when present, non-empty and not a placeholder. -/
def composedErrorMessage (st : String) (exit_code reason : Option String) : String :=
  String.intercalate "; "
    ((["Job state: " ++ st])
      ++ (match exit_code with
          | some c => if c != "" && c != "0:0" then ["Exit code: " ++ c] else []
          | none => [])
      ++ (match reason with
          | some r =>
              if r != "" && !(placeholderReasons.contains r) then ["Reason: " ++ r] else []
          | none => [])
      ++ (if st == "CANCELLED" then ["Job was cancelled"]
          else if st == "TIMEOUT" then ["Job exceeded time limit"]
          else if st == "OUT_OF_MEMORY" then ["Job ran out of memory"]
          else if st == "NODE_FAIL" then ["Node failure occurred"]
          else if st == "FAILED" then
            match exit_code with
            | some c =>
                if c != "" && c != "0:0" then ["Job failed with non-zero exit code"]
                else ["Job failed"]
            | none => ["Job failed"]
          else []))

/-- A UUID string used by the concrete scenarios (a job id). -/
def uuidA : String := "00000000-0000-0000-0000-00000000000a"

/-- A UUID string used by the concrete scenarios (a training id). -/
def uuidB : String := "00000000-0000-0000-0000-00000000000b"

/-- A UUID string used by the concrete scenarios (an inference id). -/
def uuidC : String := "00000000-0000-0000-0000-00000000000c"

/-- The wall-clock instant of the concrete scenarios. -/
def dtNow : DateTime := ⟨2025, 9, 13, 12, 30, 0⟩

/-- A start timestamp for the concrete scenarios. -/
def dtStart : DateTime := ⟨2025, 9, 13, 12, 14, 2⟩

/-- Parsed scontrol output of a cancelled job. -/
def dictCancelled : JobDict := [("JobState", "CANCELLED"), ("Reason", "UserRequest")]

/-- Parsed scontrol output of a running job with a start time. -/
def dictRunningStart : JobDict :=
  [("JobState", "RUNNING"), ("StartTime", "2025-09-13T12:14:02")]

/-- Parsed scontrol output of a preempted job. -/
def dictPreempted : JobDict := [("JobState", "PREEMPTED")]

/-- Parsed scontrol output of a successfully completed job. -/
def dictCompleted : JobDict :=
  [("JobState", "COMPLETED"), ("ExitCode", "0:0"), ("EndTime", "2025-09-13T12:20:00")]

/-- A running TRAINING job row. -/
def trainingJobRunning : JobRec := ⟨uuidA, "123", "TRAINING", "RUNNING", some dtStart, none, none⟩

/-- The sibling training row of `trainingJobRunning`. -/
def trainingRec0 : TrainingRec := ⟨uuidB, uuidA, "seg-A", "TRAINING", none, none⟩

/-- A pending TRAINING job row. -/
def pendingTrainingJob : JobRec := ⟨uuidA, "123", "TRAINING", "PENDING", none, none, none⟩

/-- A pending INFERENCE job row. -/
def inferenceJobPending : JobRec := ⟨uuidA, "123", "INFERENCE", "PENDING", none, none, none⟩

/-- The sibling inference row of `inferenceJobPending`. -/
def inferenceRec0 : InferenceRec := ⟨uuidC, uuidA, "PENDING", none, none⟩

/-- Store with one running training job and its sibling. -/
def storeTrainingRunning : Store := ⟨[trainingJobRunning], [trainingRec0], [], []⟩

/-- Store with one pending training job. -/
def storePendingTraining : Store := ⟨[pendingTrainingJob], [], [], []⟩

/-- Store with one pending inference job and its sibling. -/
def storeInferencePending : Store := ⟨[inferenceJobPending], [], [], [inferenceRec0]⟩

/-- A job-script template referencing one placeholder. -/
def tmplFold : String := "#!/bin/bash\nnnUNet_train --fold \x7bfold_index\x7d"

/-- A handler that writes nothing, used to exercise the base class alone. -/
def trivHandler : Handler := fun _ _ _ _ s => (s, true)

/-- C7: `is_job_finished` on the empty string is `False`, while the
synthesized NOT_FOUND summary is finished and successful: internal status
COMPLETED, exit code `0:0`, no error message, `end_time = now`,
`start_time = null`. -/
theorem c7_not_found_summary :
    is_job_finished "" = false ∧
    ∀ (jid : String) (now : DateTime),
      (create_completed_job_summary jid now).is_finished = true ∧
      (create_completed_job_summary jid now).is_successful = true ∧
      (create_completed_job_summary jid now).internal_status = "COMPLETED" ∧
      (create_completed_job_summary jid now).exit_code = some "0:0" ∧
      (create_completed_job_summary jid now).error_message = none ∧
      (create_completed_job_summary jid now).end_time = some now ∧
      (create_completed_job_summary jid now).start_time = none :=
  ⟨by decide, fun _ _ => ⟨rfl, rfl, rfl, rfl, rfl, rfl, rfl⟩⟩

/-- C2 counterexample: a PENDING training job whose scheduler query exits
non-zero (synthesized NOT_FOUND summary, internal status COMPLETED) is NOT
moved to COMPLETED by the tick — the store is returned unchanged and the job
is still PENDING, refuting the claimed PENDING→COMPLETED move. -/
theorem c2_pending_not_found_counterexample :
    monitorTick (trainingHandleJobUpdate dtNow)
        (fun _ => some (create_completed_job_summary "123" dtNow)) "TRAINING"
        storePendingTraining = storePendingTraining ∧
    (create_completed_job_summary "123" dtNow).internal_status = "COMPLETED" ∧
    pendingTrainingJob.status = "PENDING" := by
  refine ⟨by decide, rfl, rfl⟩

/-- C2 (amended): for every job whose stored status is PENDING and whose
query synthesizes NOT_FOUND (mapped to internal COMPLETED), the monitor tick
rejects PENDING→COMPLETED as an illegal transition and performs no write at
all: the store is unchanged and the job stays PENDING. -/
theorem c2_pending_not_found_skipped (handler : Handler) (job : JobRec)
    (info : JobSummary) (s : Store)
    (hold : job.status = "PENDING") (hnew : info.internal_status = "COMPLETED") :
    updateJobStatus handler job (some info) s = s := by
  have hv : is_valid_state_transition job.status info.internal_status = false := by
    rw [hold, hnew]; decide
  simp [updateJobStatus, hv]

/-- C2 witness: the amended no-write fact at the concrete pending store. -/
theorem c2_pending_not_found_skipped_witness :
    pendingTrainingJob.status = "PENDING" ∧
    (create_completed_job_summary "123" dtNow).internal_status = "COMPLETED" ∧
    updateJobStatus (trainingHandleJobUpdate dtNow) pendingTrainingJob
      (some (create_completed_job_summary "123" dtNow)) storePendingTraining =
      storePendingTraining :=
  ⟨rfl, rfl,
    c2_pending_not_found_skipped (trainingHandleJobUpdate dtNow) pendingTrainingJob
      (create_completed_job_summary "123" dtNow) storePendingTraining rfl rfl⟩

/-- C3: for every job processed by a tick, a (old, new) pair outside the
§4.2 allow-list is refused — `is_valid_state_transition` is false, the
per-job update returns the store untouched (before any handler runs), and
the per-job loop simply continues with the remaining jobs; a same-state pair
is always legal. -/
theorem c3_transition_allowlist (handler : Handler) (sched : String → Option JobSummary)
    (job : JobRec) (rest : List JobRec) (s : Store) (info : JobSummary)
    (hsched : sched job.sbatch_id = some info)
    (hold : job.status ∈ internalStatuses) (hnew : info.internal_status ∈ internalStatuses)
    (hpair : (job.status, info.internal_status) ∉ allowedPairs) :
    is_valid_state_transition job.status info.internal_status = false ∧
    updateJobStatus handler job (some info) s = s ∧
    processJobs handler sched (job :: rest) s = processJobs handler sched rest s ∧
    (∀ st : String, is_valid_state_transition st st = true) := by
  have hv : is_valid_state_transition job.status info.internal_status = false := by
    simp only [internalStatuses, List.mem_cons, List.not_mem_nil, or_false] at hold hnew
    rcases hold with h | h | h | h <;> rcases hnew with g | g | g | g <;>
      first
        | (exact absurd (by rw [h, g]; decide : (job.status, info.internal_status) ∈ allowedPairs) hpair)
        | (rw [h, g]; decide)
  refine ⟨hv, ?_, ?_, ?_⟩
  · simp [updateJobStatus, hv]
  · simp [processJobs, hsched, updateJobStatus, hv]
  · intro st; simp [is_valid_state_transition]

/-- C3 witness: a RUNNING→PENDING pair at concrete values is refused and the
loop moves on. -/
theorem c3_transition_allowlist_witness :
    ((fun _ => some (extract_job_summary [("JobState", "PENDING")])) :
        String → Option JobSummary) trainingJobRunning.sbatch_id =
      some (extract_job_summary [("JobState", "PENDING")]) ∧
    trainingJobRunning.status ∈ internalStatuses ∧
    (extract_job_summary [("JobState", "PENDING")]).internal_status ∈ internalStatuses ∧
    (trainingJobRunning.status,
      (extract_job_summary [("JobState", "PENDING")]).internal_status) ∉ allowedPairs ∧
    (is_valid_state_transition trainingJobRunning.status
        (extract_job_summary [("JobState", "PENDING")]).internal_status = false ∧
      updateJobStatus trivHandler trainingJobRunning
        (some (extract_job_summary [("JobState", "PENDING")])) storeTrainingRunning =
        storeTrainingRunning ∧
      processJobs trivHandler (fun _ => some (extract_job_summary [("JobState", "PENDING")]))
          [trainingJobRunning] storeTrainingRunning =
        processJobs trivHandler (fun _ => some (extract_job_summary [("JobState", "PENDING")]))
          [] storeTrainingRunning ∧
      (∀ st : String, is_valid_state_transition st st = true)) :=
  ⟨rfl, by decide, by decide, by decide,
    c3_transition_allowlist trivHandler _ trainingJobRunning [] storeTrainingRunning
      (extract_job_summary [("JobState", "PENDING")]) rfl (by decide) (by decide) (by decide)⟩

/-- C1: evaluation of the training monitor at the failing input.  A running
TRAINING job observed as CANCELLED (internal FAILED) is routed through
`_handle_normal_update`: the Job row becomes FAILED with the composed error
message, but the sibling Training row is NOT touched — it stays TRAINING
with no end time and no error, and no transaction couples the two. -/
theorem c1_training_failure_leaves_training_row :
    (extract_job_summary dictCancelled).internal_status = "FAILED" ∧
    updateJobStatus (trainingHandleJobUpdate dtNow) trainingJobRunning
        (some (extract_job_summary dictCancelled)) storeTrainingRunning =
      { jobs := [{ trainingJobRunning with
                    status := "FAILED",
                    error_message :=
                      some "Job state: CANCELLED; Reason: UserRequest; Job was cancelled" }],
        trainings := [trainingRec0],
        models := [],
        inferences := [] } ∧
    trainingRec0.status = "TRAINING" := by
  refine ⟨by decide, by decide, rfl⟩

/-- C5 counterexample: a PENDING INFERENCE job observed as RUNNING.  The
prediction monitor updates the Job row to RUNNING (start time taken over)
but does not touch the sibling Inference row: it stays PENDING, never
becoming PROCESSING, refuting the claimed sibling bump. -/
theorem c5_running_leaves_inference_row :
    (extract_job_summary dictRunningStart).internal_status = "RUNNING" ∧
    updateJobStatus predictionHandleJobUpdate inferenceJobPending
        (some (extract_job_summary dictRunningStart)) storeInferencePending =
      { jobs := [{ inferenceJobPending with
                    status := "RUNNING",
                    start_time := some dtStart }],
        trainings := [],
        models := [],
        inferences := [inferenceRec0] } ∧
    inferenceRec0.status = "PENDING" := by
  refine ⟨by decide, by decide, rfl⟩

/-- C5 (amended): on a RUNNING observation the prediction monitor's apply
updates only the Job row — status becomes RUNNING and a newly available
start time is taken over — and returns true; the sibling Inference rows are
left exactly as they were (no PENDING→PROCESSING bump exists in this
monitor). -/
theorem c5_running_updates_job_only (job : JobRec) (info : JobSummary) (s : Store)
    (j0 : JobRec)
    (huuid : isValidUUID job.id = true)
    (hfind : s.jobs.find? (fun x => x.id == job.id) = some j0) :
    predictionHandleJobUpdate job info job.status "RUNNING" s =
      ({ s with jobs := s.jobs.map (fun x =>
          if x.id == job.id then applyJobUpd j0 (normalUpd job info "RUNNING") else x) },
        true) ∧
    (applyJobUpd j0 (normalUpd job info "RUNNING")).status = "RUNNING" ∧
    (predictionHandleJobUpdate job info job.status "RUNNING" s).1.inferences = s.inferences ∧
    (∀ t, info.start_time = some t → job.start_time = none →
      (applyJobUpd j0 (normalUpd job info "RUNNING")).start_time = some t) := by
  have hmain : predictionHandleJobUpdate job info job.status "RUNNING" s =
      ({ s with jobs := s.jobs.map (fun x =>
          if x.id == job.id then applyJobUpd j0 (normalUpd job info "RUNNING") else x) },
        true) := by
    simp [predictionHandleJobUpdate, predictionHandleNormalUpdate, huuid, jobUpdate, hfind]
  refine ⟨hmain, rfl, by rw [hmain], ?_⟩
  intro t hst hjs
  simp [applyJobUpd, normalUpd, hst, hjs]

/-- C5 witness: the amended behaviour at the concrete pending inference
store. -/
theorem c5_running_updates_job_only_witness :
    isValidUUID inferenceJobPending.id = true ∧
    storeInferencePending.jobs.find? (fun x => x.id == inferenceJobPending.id) =
      some inferenceJobPending ∧
    (predictionHandleJobUpdate inferenceJobPending (extract_job_summary dictRunningStart)
        inferenceJobPending.status "RUNNING" storeInferencePending =
      ({ storeInferencePending with jobs := storeInferencePending.jobs.map (fun x =>
          if x.id == inferenceJobPending.id then
            applyJobUpd inferenceJobPending
              (normalUpd inferenceJobPending (extract_job_summary dictRunningStart) "RUNNING")
          else x) },
        true) ∧
    (applyJobUpd inferenceJobPending
        (normalUpd inferenceJobPending (extract_job_summary dictRunningStart) "RUNNING")).status
      = "RUNNING" ∧
    (predictionHandleJobUpdate inferenceJobPending (extract_job_summary dictRunningStart)
        inferenceJobPending.status "RUNNING" storeInferencePending).1.inferences =
      storeInferencePending.inferences ∧
    (∀ t, (extract_job_summary dictRunningStart).start_time = some t →
      inferenceJobPending.start_time = none →
      (applyJobUpd inferenceJobPending
          (normalUpd inferenceJobPending (extract_job_summary dictRunningStart) "RUNNING")).start_time
        = some t)) :=
  ⟨by decide, by decide,
    c5_running_updates_job_only inferenceJobPending (extract_job_summary dictRunningStart)
      storeInferencePending inferenceJobPending (by decide) (by decide)⟩

/-- C10: `poll_job_once` never writes to the store (the result store is the
input store on every path) and never raises: an invalid UUID, a missing job
row or a failing scheduler lookup all yield `none`, and otherwise the
scheduler's summary for the job's external id is returned. -/
theorem c10_poll_job_once (s : Store) (sched : String → Except String JobSummary)
    (job_id : String) :
    (pollJobOnce s sched job_id).1 = s ∧
    (isValidUUID job_id = false → (pollJobOnce s sched job_id).2 = none) ∧
    (jobGetById s job_id = none → (pollJobOnce s sched job_id).2 = none) ∧
    (∀ job e, jobGetById s job_id = some job → sched job.sbatch_id = .error e →
      (pollJobOnce s sched job_id).2 = none) ∧
    (∀ job info, isValidUUID job_id = true → jobGetById s job_id = some job →
      sched job.sbatch_id = .ok info → (pollJobOnce s sched job_id).2 = some info) := by
  refine ⟨?_, ?_, ?_, ?_, ?_⟩
  · unfold pollJobOnce
    cases hv : isValidUUID job_id with
    | false => simp
    | true =>
      simp only [Bool.not_true, Bool.false_eq_true, if_false]
      cases hj : jobGetById s job_id with
      | none => simp
      | some job => cases hs : sched job.sbatch_id <;> simp [hs]
  · intro hv; simp [pollJobOnce, hv]
  · intro hj
    unfold pollJobOnce
    cases hv : isValidUUID job_id with
    | false => simp
    | true => simp [hj]
  · intro job e hj hs
    cases hv : isValidUUID job_id <;> simp [pollJobOnce, hv, hj, hs]
  · intro job info hv hj hs
    simp [pollJobOnce, hv, hj, hs]

/-- C10 witness: the poll at a concrete store, scheduler and id. -/
theorem c10_poll_job_once_witness :
    (pollJobOnce storeTrainingRunning
        (fun _ => .ok (extract_job_summary dictRunningStart)) uuidA).1 =
      storeTrainingRunning ∧
    (isValidUUID uuidA = false →
      (pollJobOnce storeTrainingRunning
        (fun _ => .ok (extract_job_summary dictRunningStart)) uuidA).2 = none) ∧
    (jobGetById storeTrainingRunning uuidA = none →
      (pollJobOnce storeTrainingRunning
        (fun _ => .ok (extract_job_summary dictRunningStart)) uuidA).2 = none) ∧
    (∀ job e, jobGetById storeTrainingRunning uuidA = some job →
      (fun (_ : String) => (.ok (extract_job_summary dictRunningStart) :
          Except String JobSummary)) job.sbatch_id = .error e →
      (pollJobOnce storeTrainingRunning
        (fun _ => .ok (extract_job_summary dictRunningStart)) uuidA).2 = none) ∧
    (∀ job info, isValidUUID uuidA = true →
      jobGetById storeTrainingRunning uuidA = some job →
      (fun (_ : String) => (.ok (extract_job_summary dictRunningStart) :
          Except String JobSummary)) job.sbatch_id = .ok info →
      (pollJobOnce storeTrainingRunning
        (fun _ => .ok (extract_job_summary dictRunningStart)) uuidA).2 = some info) :=
  c10_poll_job_once storeTrainingRunning
    (fun _ => .ok (extract_job_summary dictRunningStart)) uuidA

/-- C9: `submit_sbatch_job` deletes the scratch file on every exit path (the
resulting scratch set equals the incoming one for a fresh path), fails
exactly when the command exits non-zero or the output has no
`Submitted batch job <N>` match, and otherwise returns the parsed numeric
id. -/
theorem c9_submit_scratch_and_result (freshPath : String) (r : ExecResult)
    (scratch : List String) (hfresh : freshPath ∉ scratch) :
    (submit_sbatch_job freshPath r scratch).1 = scratch ∧
    (∀ jid, (submit_sbatch_job freshPath r scratch).2 = .ok jid ↔
      (r.returncode = 0 ∧ findSubmittedId r.stdout.toList = some jid)) ∧
    ((∃ e, (submit_sbatch_job freshPath r scratch).2 = .error e) ↔
      (r.returncode ≠ 0 ∨ findSubmittedId r.stdout.toList = none)) := by
  have hclean : (scratch ++ [freshPath]).filter (fun p => p != freshPath) = scratch := by
    rw [List.filter_append]
    have h1 : scratch.filter (fun p => p != freshPath) = scratch :=
      List.filter_eq_self.mpr (fun a ha => by
        simp only [bne_iff_ne, ne_eq]
        exact fun h => hfresh (h ▸ ha))
    have h2 : [freshPath].filter (fun p => p != freshPath) = [] := by simp
    rw [h1, h2, List.append_nil]
  refine ⟨hclean, ?_, ?_⟩
  · intro jid
    by_cases hrc : r.returncode = 0
    · cases hfind : findSubmittedId r.stdout.toList with
      | none =>
          have hfind' : findSubmittedId r.stdout.data = none := hfind
          simp [submit_sbatch_job, execute_command_with_success_check, hrc,
            slurm_extract_job_id, hfind, hfind']
      | some j =>
          have hfind' : findSubmittedId r.stdout.data = some j := hfind
          simp [submit_sbatch_job, execute_command_with_success_check, hrc,
            slurm_extract_job_id, hfind, hfind', eq_comm]
    · have : (r.returncode != 0) = true := by simpa [bne_iff_ne] using hrc
      simp [submit_sbatch_job, execute_command_with_success_check, this, hrc]
  · by_cases hrc : r.returncode = 0
    · cases hfind : findSubmittedId r.stdout.toList with
      | none =>
          have hfind' : findSubmittedId r.stdout.data = none := hfind
          simp [submit_sbatch_job, execute_command_with_success_check, hrc,
            slurm_extract_job_id, hfind, hfind']
      | some j =>
          have hfind' : findSubmittedId r.stdout.data = some j := hfind
          simp [submit_sbatch_job, execute_command_with_success_check, hrc,
            slurm_extract_job_id, hfind, hfind']
    · have hb : (r.returncode != 0) = true := by simpa [bne_iff_ne] using hrc
      simp [submit_sbatch_job, execute_command_with_success_check, hb, hrc]

/-- C9 witness: a concrete successful submission with a fresh scratch path. -/
theorem c9_submit_scratch_and_result_witness :
    "/tmp/x.sbatch" ∉ ([] : List String) ∧
    ((submit_sbatch_job "/tmp/x.sbatch" ⟨"Submitted batch job 42\n", "", 0⟩ []).1 = [] ∧
    (∀ jid, (submit_sbatch_job "/tmp/x.sbatch" ⟨"Submitted batch job 42\n", "", 0⟩ []).2 =
        .ok jid ↔
      ((⟨"Submitted batch job 42\n", "", 0⟩ : ExecResult).returncode = 0 ∧
        findSubmittedId (⟨"Submitted batch job 42\n", "", 0⟩ : ExecResult).stdout.toList =
          some jid)) ∧
    ((∃ e, (submit_sbatch_job "/tmp/x.sbatch" ⟨"Submitted batch job 42\n", "", 0⟩ []).2 =
        .error e) ↔
      ((⟨"Submitted batch job 42\n", "", 0⟩ : ExecResult).returncode ≠ 0 ∨
        findSubmittedId (⟨"Submitted batch job 42\n", "", 0⟩ : ExecResult).stdout.toList =
          none))) :=
  ⟨by decide,
    c9_submit_scratch_and_result "/tmp/x.sbatch" ⟨"Submitted batch job 42\n", "", 0⟩ []
      (by decide)⟩

/-- C8: the code-level evaluation at the failing input.  For the training
path (`interpolate_template`) a missing variable makes rendering fail, but —
because of the bare `raise` — with a message that does not report the
missing names at all; the inference path does report them; in both cases the
facade never reaches the submission call. -/
theorem c8_missing_variable_message :
    interpolate_template tmplFold [] =
      .error "Template interpolation failed: No active exception to re-raise" ∧
    containsSub "fold_index".toList
      "Template interpolation failed: No active exception to re-raise".toList = false ∧
    generate_inference_sbatch_content tmplFold [] =
      .error "Inference template generation failed: Missing template variables: [\x27fold_index\x27]" ∧
    (submit_prediction_job tmplFold [] (.ok "999")).2 = false ∧
    (submit_prediction_job tmplFold [] (.ok "999")).1 =
      .error "Inference template generation failed: Missing template variables: [\x27fold_index\x27]" := by
  refine ⟨by rfl, by decide, by rfl, by decide, by rfl⟩

theorem find?_replace_hit {α : Type} (p q : α → Bool) (j1 : α) (hp1 : p j1 = true) :
    ∀ (l : List α) (j : α), l.find? p = some j → q j = true →
    (l.map (fun x => if q x then j1 else x)).find? p = some j1 := by
  intro l
  induction l with
  | nil => intro j h _; simp at h
  | cons a t ih =>
    intro j h hqj
    simp only [List.map_cons]
    by_cases hqa : q a = true
    · rw [if_pos hqa, List.find?_cons_of_pos _ hp1]
    · rw [if_neg hqa]
      by_cases hpa : p a = true
      · rw [List.find?_cons_of_pos _ hpa] at h
        injection h with h2
        cases h2
        exact absurd hqj hqa
      · rw [List.find?_cons_of_neg _ hpa] at h
        rw [List.find?_cons_of_neg _ hpa]
        exact ih j h hqj

theorem replace_map_twice {α : Type} (q : α → Bool) (j1 : α) (hq : q j1 = true) :
    ∀ l : List α,
    (l.map (fun x => if q x then j1 else x)).map (fun x => if q x then j1 else x) =
      l.map (fun x => if q x then j1 else x) := by
  intro l
  induction l with
  | nil => rfl
  | cons a t ih =>
    simp only [List.map_cons, ih]
    congr 1
    by_cases hqa : q a = true
    · rw [if_pos hqa, if_pos hq]
    · rw [if_neg hqa, if_neg hqa]

theorem applyJobUpd_idem (j : JobRec) (u : JobUpd) :
    applyJobUpd (applyJobUpd j u) u = applyJobUpd j u := by
  obtain ⟨us, ust, uet, uem⟩ := u
  cases us <;> cases ust <;> cases uet <;> cases uem <;> rfl

theorem applyTrainUpd_idem (t : TrainingRec) (u : TrainUpd) :
    applyTrainUpd (applyTrainUpd t u) u = applyTrainUpd t u := by
  obtain ⟨us, uet⟩ := u
  cases us <;> cases uet <;> rfl

/-- C4 counterexample: re-running the completion apply with identical inputs
is not idempotent — after the second apply, TWO Model rows reference the
training (the source has no model-exists guard), refuting "exactly one Model
row references the Training". -/
theorem c4_replay_duplicates_model :
    ((trainingHandleCompletion dtNow trainingJobRunning (extract_job_summary dictCompleted)
        storeTrainingRunning).1.models.filter
      (fun m => m.training_id == trainingRec0.id)).length = 1 ∧
    ((trainingHandleCompletion dtNow trainingJobRunning (extract_job_summary dictCompleted)
        ((trainingHandleCompletion dtNow trainingJobRunning (extract_job_summary dictCompleted)
          storeTrainingRunning).1)).1.models.filter
      (fun m => m.training_id == trainingRec0.id)).length = 2 := by
  refine ⟨by decide, by decide⟩

/-- C4 (amended): replaying the same COMPLETED `JobInfo` on the same TRAINING
job leaves the Job and Training rows exactly as after the first apply (no
already-set timestamp is rewritten, since the update recomputes the same
values) but appends a second, identical Model row for the training — the
store is NOT unchanged: it differs from the first apply's result precisely by
that duplicated Model insert. -/
theorem c4_replay_appends_second_model (now : DateTime) (job : JobRec) (info : JobSummary)
    (s : Store) (j0 : JobRec) (tr : TrainingRec)
    (hju : isValidUUID job.id = true)
    (hfj : s.jobs.find? (fun x => x.id == job.id) = some j0)
    (hft : s.trainings.find? (fun t => t.job_id == job.id) = some tr)
    (hfti : s.trainings.find? (fun t => t.id == tr.id) = some tr)
    (htu : isValidUUID tr.id = true) :
    (trainingHandleCompletion now job info s).2 = true ∧
    trainingHandleCompletion now job info (trainingHandleCompletion now job info s).1 =
      ({ (trainingHandleCompletion now job info s).1 with
          models := (trainingHandleCompletion now job info s).1.models ++
            [{ training_id := tr.id, model_name := tr.name ++ "_model",
               created_at := info.end_time.getD now }] }, true) := by
  have hpj0 : (j0.id == job.id) = true := by
    have h := List.find?_some hfj
    exact h
  have hptr : (tr.job_id == job.id) = true := by
    have h := List.find?_some hft
    exact h
  have hj1id : (applyJobUpd j0 (completionJobUpd job info)).id = j0.id := rfl
  have htr1id : (applyTrainUpd tr (trainedUpd info)).id = tr.id := rfl
  have htr1job : (applyTrainUpd tr (trainedUpd info)).job_id = tr.job_id := rfl
  have htr1name : (applyTrainUpd tr (trainedUpd info)).name = tr.name := rfl
  have hq2 : ((applyJobUpd j0 (completionJobUpd job info)).id == job.id) = true := by
    rw [hj1id]; exact hpj0
  have hq3 : ((applyTrainUpd tr (trainedUpd info)).id == tr.id) = true := by
    rw [htr1id]; exact beq_self_eq_true tr.id
  have h1 : trainingHandleCompletion now job info s =
      ({ jobs := s.jobs.map (fun x =>
            if x.id == job.id then applyJobUpd j0 (completionJobUpd job info) else x),
         trainings := s.trainings.map (fun t =>
            if t.id == tr.id then applyTrainUpd tr (trainedUpd info) else t),
         models := s.models ++
            [{ training_id := tr.id, model_name := tr.name ++ "_model",
               created_at := info.end_time.getD now }],
         inferences := s.inferences }, true) := by
    simp [trainingHandleCompletion, hju, jobUpdate, hfj, trainingGetByJobId, hft, htu,
      trainingUpdate, hfti, modelCreate]
  have hfj2 : ((s.jobs.map (fun x =>
        if x.id == job.id then applyJobUpd j0 (completionJobUpd job info) else x)).find?
        (fun x => x.id == job.id)) = some (applyJobUpd j0 (completionJobUpd job info)) :=
    find?_replace_hit (fun x => x.id == job.id) (fun x => x.id == job.id)
      (applyJobUpd j0 (completionJobUpd job info)) hq2 s.jobs j0 hfj hpj0
  have hft2 : ((s.trainings.map (fun t =>
        if t.id == tr.id then applyTrainUpd tr (trainedUpd info) else t)).find?
        (fun t => t.job_id == job.id)) = some (applyTrainUpd tr (trainedUpd info)) :=
    find?_replace_hit (fun t => t.job_id == job.id) (fun t => t.id == tr.id)
      (applyTrainUpd tr (trainedUpd info)) (by exact hptr) s.trainings tr hft
      (beq_self_eq_true tr.id)
  have hfti2 : ((s.trainings.map (fun t =>
        if t.id == tr.id then applyTrainUpd tr (trainedUpd info) else t)).find?
        (fun t => t.id == tr.id)) = some (applyTrainUpd tr (trainedUpd info)) :=
    find?_replace_hit (fun t => t.id == tr.id) (fun t => t.id == tr.id)
      (applyTrainUpd tr (trainedUpd info)) hq3 s.trainings tr hfti (beq_self_eq_true tr.id)
  refine ⟨by rw [h1], ?_⟩
  rw [h1]
  simp only [trainingHandleCompletion, hju, Bool.not_true, Bool.false_eq_true, if_false,
    jobUpdate, trainingGetByJobId, trainingUpdate, modelCreate, hfj2, hft2, htr1id, hfti2,
    htr1job, htr1name, applyJobUpd_idem, applyTrainUpd_idem, htu]
  rw [replace_map_twice (fun x => x.id == job.id)
      (applyJobUpd j0 (completionJobUpd job info)) hq2 s.jobs,
    replace_map_twice (fun t => t.id == tr.id)
      (applyTrainUpd tr (trainedUpd info)) hq3 s.trainings]

/-- C4 witness: the duplicated-model replay at the concrete training store. -/
theorem c4_replay_appends_second_model_witness :
    isValidUUID trainingJobRunning.id = true ∧
    storeTrainingRunning.jobs.find? (fun x => x.id == trainingJobRunning.id) =
      some trainingJobRunning ∧
    storeTrainingRunning.trainings.find? (fun t => t.job_id == trainingJobRunning.id) =
      some trainingRec0 ∧
    storeTrainingRunning.trainings.find? (fun t => t.id == trainingRec0.id) =
      some trainingRec0 ∧
    isValidUUID trainingRec0.id = true ∧
    ((trainingHandleCompletion dtNow trainingJobRunning (extract_job_summary dictCompleted)
        storeTrainingRunning).2 = true ∧
      trainingHandleCompletion dtNow trainingJobRunning (extract_job_summary dictCompleted)
          (trainingHandleCompletion dtNow trainingJobRunning
            (extract_job_summary dictCompleted) storeTrainingRunning).1 =
        ({ (trainingHandleCompletion dtNow trainingJobRunning
              (extract_job_summary dictCompleted) storeTrainingRunning).1 with
            models := (trainingHandleCompletion dtNow trainingJobRunning
                (extract_job_summary dictCompleted) storeTrainingRunning).1.models ++
              [{ training_id := trainingRec0.id,
                 model_name := trainingRec0.name ++ "_model",
                 created_at := (extract_job_summary dictCompleted).end_time.getD dtNow }] },
          true)) :=
  ⟨by decide, by decide, by decide, by decide, by decide,
    c4_replay_appends_second_model dtNow trainingJobRunning
      (extract_job_summary dictCompleted) storeTrainingRunning trainingJobRunning
      trainingRec0 (by decide) (by decide) (by decide) (by decide) (by decide)⟩

/-- C6 counterexample: `PREEMPTED` maps to internal FAILED but is not in the
finished set, so `extract_error_message` returns `None` and the summary's
`error_message` is null — refuting "the summary's error_message is non-null"
for every FAILED-mapped state. -/
theorem c6_preempted_failed_without_message :
    map_slurm_state_to_job_status "PREEMPTED" = "FAILED" ∧
    (extract_job_summary dictPreempted).internal_status = "FAILED" ∧
    (extract_job_summary dictPreempted).error_message = none := by
  refine ⟨by decide, by decide, by decide⟩

/-- C6 (amended): for a parsed summary whose external state is one of the
finished failure states (FAILED, CANCELLED, TIMEOUT, OUT_OF_MEMORY,
NODE_FAIL) and whose exit code is not `0:0`, the internal status is FAILED
and the error message is exactly the `"; "`-join of: the external state, the
exit code when present, non-empty and differing from `0:0`, the reason when
present, non-empty and not a placeholder, and the state-specific phrase.
(For PREEMPTED or unrecognized states, or exit code `0:0`, the message is
null instead — see the counterexample.) -/
theorem c6_error_message_composition (d : JobDict) (st : String)
    (hst : extract_job_state d = some st)
    (hfin : st ∈ ["FAILED", "CANCELLED", "TIMEOUT", "OUT_OF_MEMORY", "NODE_FAIL"])
    (hexit : extract_exit_code d ≠ some "0:0") :
    (extract_job_summary d).internal_status = "FAILED" ∧
    (extract_job_summary d).error_message =
      some (composedErrorMessage st (extract_exit_code d) (extract_job_reason d)) := by
  have hsucc : is_job_successful d = false := by
    unfold is_job_successful
    cases hc : extract_exit_code d with
    | none => rfl
    | some c =>
      have hne : c ≠ "0:0" := fun h => hexit (by rw [hc, h])
      simp [hne]
  simp only [List.mem_cons, List.not_mem_nil, or_false] at hfin
  rcases hfin with h | h | h | h | h <;> subst h <;>
    refine ⟨by simp only [extract_job_summary]; rw [hst]; decide, ?_⟩ <;>
    · simp only [extract_job_summary, extract_error_message, composedErrorMessage, hst, hsucc]
      cases hc : extract_exit_code d <;> cases hr : extract_job_reason d <;>
        simp [is_job_finished, placeholderReasons, map_slurm_state_to_job_status]

/-- C6 witness: the composed message of the concrete cancelled summary. -/
theorem c6_error_message_composition_witness :
    extract_job_state dictCancelled = some "CANCELLED" ∧
    "CANCELLED" ∈ ["FAILED", "CANCELLED", "TIMEOUT", "OUT_OF_MEMORY", "NODE_FAIL"] ∧
    extract_exit_code dictCancelled ≠ some "0:0" ∧
    ((extract_job_summary dictCancelled).internal_status = "FAILED" ∧
      (extract_job_summary dictCancelled).error_message =
        some (composedErrorMessage "CANCELLED" (extract_exit_code dictCancelled)
          (extract_job_reason dictCancelled))) :=
  ⟨by decide, by decide, by decide,
    c6_error_message_composition dictCancelled "CANCELLED" (by decide) (by decide) (by decide)⟩
